import Mathlib

/-
Shallow embedding of the pagination-in-cosmosdb repository:
  src/helper/cosmosdb.helper.ts  (class CosmosDbHelper)
  src/services/cases.service.ts  (class CasesService)
JavaScript strings become Lean String, JS numbers Int, the union type
string | number | boolean | undefined becomes JsValue, and the two enums
FilterCondition / SortOrder from digicust_types become inductive types with
an extra constructor for a value outside the recognized ones (TypeScript
enums do not prevent such values at runtime; the helper's switch statements
have a default branch for them).  A JS exception is modelled with Except.
-/

namespace Cosmos

/-- FilterCondition from digicust_types; `other` stands for any runtime value
that is none of the three members the helper's switch recognizes. -/
inductive FilterCondition where
  | equals
  | greaterThan
  | smallerThan
  | other
deriving DecidableEq, Repr

/-- SortOrder from digicust_types; `other` stands for any unrecognized runtime value. -/
inductive SortOrder where
  | ASC
  | DESC
  | other
deriving DecidableEq, Repr

/-- A value of TypeScript type string | number | boolean | undefined. -/
inductive JsValue where
  | str (s : String)
  | num (n : Int)
  | bool (b : Bool)
  | undef
deriving DecidableEq, Repr

/-- JS template-literal interpolation of a value: how a JsValue renders inside
a backtick template (undefined renders as the text "undefined"). -/
def jsRender : JsValue → String
  | JsValue.str s => s
  | JsValue.num n => toString n
  | JsValue.bool b => toString b
  | JsValue.undef => "undefined"

/-- JS template-literal interpolation of a string | undefined value. -/
def jsRenderOpt : Option String → String
  | Option.some s => s
  | Option.none => "undefined"

/-- Char-list splitting on a separator character, the semantics of JS
str.split(sep) for a one-character separator (the only separators the
helper uses are "." and " "). -/
def splitCharList (sep : Char) : List Char → List (List Char)
  | [] => [[]]
  | c :: rest =>
    let r := splitCharList sep rest
    if c = sep then [] :: r
    else
      match r with
      | [] => [[c]]
      | h :: t => (c :: h) :: t

/-- JS str.split(sep) for a one-character separator. -/
def jsSplit (sep : Char) (s : String) : List String :=
  (splitCharList sep s.data).map (fun cs => String.mk cs)

/-- JS arr.join(sep). -/
def jsJoin (sep : String) : List String → String
  | [] => ""
  | [x] => x
  | x :: y :: rest => x ++ sep ++ jsJoin sep (y :: rest)

/-- JS str.replace(".", " "): replaces only the first occurrence of the dot. -/
def replaceFirstDot (s : String) : String :=
  match jsSplit '.' s with
  | [] => s
  | [x] => x
  | x :: rest => x ++ " " ++ jsJoin "." rest

/-- Whether `sub` is a prefix of `l`. -/
def charListIsPrefix : List Char → List Char → Bool
  | [], _ => true
  | _ :: _, [] => false
  | a :: as, b :: bs => a = b && charListIsPrefix as bs

/-- Whether `sub` occurs inside `l` as a contiguous run. -/
def charListContains (sub : List Char) : List Char → Bool
  | [] => charListIsPrefix sub []
  | c :: rest => charListIsPrefix sub (c :: rest) || charListContains sub rest

/-- JS str.includes(sub): substring containment test. -/
def jsIncludes (s sub : String) : Bool :=
  charListContains sub.data s.data

/-- One entry of the filters argument of getFilterSql:
\x7b field: string; condition: FilterCondition; value: string | number | boolean \x7d
(value may also be undefined at runtime; getFilterSql tests for that). -/
structure Filter where
  field : String
  condition : FilterCondition
  value : JsValue
deriving DecidableEq, Repr

/-- One entry of the sort argument: \x7b field: string; order: SortOrder \x7d. -/
structure SortItem where
  field : String
  order : SortOrder
deriving DecidableEq, Repr

/-- One entry of the searchFields argument: \x7b field: string; value: string \x7d. -/
structure SearchField where
  field : String
  value : String
deriving DecidableEq, Repr

/-- CosmosDbHelper.objectToString: stringArr.split(".").forEach, appending
a bracket-quoted accessor for the literal segment "value" and `.segment`
for every other segment. -/
def objectToString (stringArr : String) : String :=
  (jsSplit '.' stringArr).foldl
    (fun result item => result ++ (if item = "value" then "[\"value\"]" else "." ++ item)) ""

/-- CosmosDbHelper.filterCondition: the switch over the three recognized
operators; the default branch leaves result undefined (none). -/
def filterCondition : FilterCondition → Option String
  | FilterCondition.equals => Option.some "="
  | FilterCondition.greaterThan => Option.some ">"
  | FilterCondition.smallerThan => Option.some "<"
  | FilterCondition.other => Option.none

/-- The value rendering of getFilterSql's third branch: unquoted for a number
or boolean, otherwise single-quote wrapped with no escaping. -/
def renderFilterValue (v : JsValue) : String :=
  match v with
  | JsValue.num n => toString n
  | JsValue.bool b => toString b
  | v => "'" ++ jsRender v ++ "'"

/-- `first` as computed inside getFilterSql's forEach body:
filter.field.replace(".", " ").split(" ")[0]. -/
def filterFirst (field : String) : String :=
  (jsSplit ' ' (replaceFirstDot field)).headD ""

/-- `second` as computed inside getFilterSql's forEach body:
filter.field.replace(".", " ").split(" ")[1] (undefined when absent). -/
def filterSecond (field : String) : Option String :=
  (jsSplit ' ' (replaceFirstDot field)).get? 1

/-- The fragment getFilterSql pushes for the filter at position `index`. -/
def filterFragment (index : Nat) (filter : Filter) : String :=
  let first := filterFirst filter.field
  let second := filterSecond filter.field
  if first = "documents" ∨ first = "submissions" then
    "JOIN (SELECT VALUE t" ++ toString index ++ " FROM t" ++ toString index ++
      " IN backend." ++ first ++ " WHERE t" ++ toString index ++ "." ++
      jsRenderOpt second ++ " = '" ++ jsRender filter.value ++ "')"
  else if filter.value = JsValue.undef then
    "AND NOT IS_DEFINED(backend" ++ objectToString filter.field ++ ")"
  else
    "AND backend" ++ objectToString filter.field ++ " " ++
      jsRenderOpt (filterCondition filter.condition) ++ " " ++ renderFilterValue filter.value

/-- The forEach loop of getFilterSql, carrying the element index. -/
def getFilterSqlAux (index : Nat) : List Filter → List String
  | [] => []
  | filter :: rest => filterFragment index filter :: getFilterSqlAux (index + 1) rest

/-- CosmosDbHelper.getFilterSql. -/
def getFilterSql (filters : List Filter) : List String :=
  getFilterSqlAux 0 filters

/-- The fragment getSort's map callback returns for the item at `index`. -/
def sortFragment (index : Nat) (item : SortItem) : String :=
  match item.order with
  | SortOrder.ASC =>
    if index = 0 then "ORDER BY backend." ++ item.field ++ " ASC"
    else "backend." ++ item.field ++ " ASC"
  | SortOrder.DESC =>
    if index = 0 then "ORDER BY backend." ++ item.field ++ " DESC"
    else "backend." ++ item.field ++ " DESC"
  | SortOrder.other => ""

/-- The map loop of getSort, carrying the element index. -/
def getSortAux (index : Nat) : List SortItem → List String
  | [] => []
  | item :: rest => sortFragment index item :: getSortAux (index + 1) rest

/-- CosmosDbHelper.getSort. -/
def getSort (sortArr : List SortItem) : List String :=
  getSortAux 0 sortArr

/-- CosmosDbHelper.getFullSearchSql: pushes a fragment for every truthy
(nonempty) search string. -/
def getFullSearchSql : List String → List String
  | [] => []
  | search :: rest =>
    if search = "" then getFullSearchSql rest
    else ("AND LOWER(ToString(backend)) LIKE \"%" ++ search.toLower ++ "%\"") ::
      getFullSearchSql rest

/-- CosmosDbHelper.getSearchQuery: concatenates one LIKE clause per search
field, each with a trailing space; empty input returns the empty string. -/
def getSearchQuery (search : List SearchField) : String :=
  if search.length = 0 then ""
  else search.foldl
    (fun result item =>
      result ++ "AND LOWER(backend." ++ item.field ++ ") LIKE '%" ++
        item.value.toLower ++ "%' ") ""

/-- CosmosDbHelper.getPropertiesQuery: wildcard for an empty list, otherwise
`backend.` -prefixed names joined by ", " (built with a trailing separator
that substr then trims). -/
def getPropertiesQuery (properties : List String) : String :=
  if properties.length = 0 then "*"
  else
    let result := properties.foldl (fun r p => r ++ "backend." ++ p ++ ", ") ""
    result.take (result.length - 2)

/-- The record getAllOptionsQuery returns. -/
structure AllOptions where
  sorts : String
  allProperties : String
  filters : String
  searchObjectQuery : String
  searchFieldQuery : String
deriving DecidableEq, Repr

/-- CosmosDbHelper.getAllOptionsQuery: aggregates the clause builders; the
filter fragments are kept only when they contain "AND" (String.includes),
then joined with a single space. -/
def getAllOptionsQuery (sort : List SortItem) (filter : List Filter)
    (search : List String) (searchFields : List SearchField)
    (properties : List String) : AllOptions :=
  { allProperties := getPropertiesQuery properties
    sorts := jsJoin ", " (getSort sort)
    filters := jsJoin " "
      ((getFilterSql filter).filter (fun item => jsIncludes item "AND"))
    searchFieldQuery := getSearchQuery searchFields
    searchObjectQuery := jsJoin " " (getFullSearchSql search) }

/-- One named query parameter of a SqlQuerySpec. -/
structure QueryParam where
  name : String
  value : String
deriving DecidableEq, Repr

/-- A SqlQuerySpec: query text plus named parameters. -/
structure QuerySpec where
  query : String
  parameters : List QueryParam
deriving DecidableEq, Repr

/-- The FeedOptions fields getCaseList passes to queryContainerNext. -/
structure FeedOptions where
  maxItemCount : Nat
  continuationToken : String
  partitionKey : String
deriving DecidableEq, Repr

/-- One entry of a Project record's modules array: \x7b type, active \x7d. -/
structure ModuleEntry where
  type : String
  active : Bool
deriving DecidableEq, Repr

/-- A row returned by the permission query: SELECT backend.modules yields an
object whose modules property may be absent. -/
structure ProjectRecord where
  modules : Option (List ModuleEntry)
deriving DecidableEq, Repr

/-- A case row as far as the service inspects it: the module attribute it
filters on plus an opaque identifier for the rest of the document. -/
structure CaseModel where
  module : String
  id : String
deriving DecidableEq, Repr

/-- What the store's fetchNext() resolves with: resources plus possibly
absent hasMoreResults and continuationToken. -/
structure FetchNextResponse where
  resources : List CaseModel
  hasMoreResults : Option Bool
  continuationToken : Option String
deriving DecidableEq, Repr

/-- The record queryContainerNext returns after destructuring. -/
structure QueryNextResult where
  result : List CaseModel
  hasMoreResults : Option Bool
  continuationToken : Option String
deriving DecidableEq, Repr

/-- The external CosmosDB store collaborator, as the two query primitives the
service uses: queryContainer (used for the Project permission lookup) and the
fetchNext iteration behind queryContainerNext.  Both take the query spec, the
options and the container id, so a theorem can see exactly what is passed. -/
structure CosmosStore where
  projectQuery : QuerySpec → String → List ProjectRecord
  fetchNext : QuerySpec → FeedOptions → String → FetchNextResponse

/-- CosmosDbHelper.queryContainerNext: runs the query with the given feed
options on the given container and repackages resources, hasMoreResults and
continuationToken. -/
def queryContainerNext (store : CosmosStore) (querySpec : QuerySpec)
    (queryOptions : FeedOptions) (containerId : String) : QueryNextResult :=
  let r := store.fetchNext querySpec queryOptions containerId
  { result := r.resources
    hasMoreResults := r.hasMoreResults
    continuationToken := r.continuationToken }

/-- The optional chain of CasesService.getModulePermission:
projectPermission?.[0]?.modules?.filter(active).map(type) — undefined (none)
when there is no first record or it has no modules array. -/
def activeModuleTypes (projectPermission : List ProjectRecord) : Option (List String) :=
  match projectPermission.head? with
  | Option.none => Option.none
  | Option.some record =>
    match record.modules with
    | Option.none => Option.none
    | Option.some ms =>
      Option.some ((ms.filter (fun it => it.active == true)).map (fun it => it.type))

/-- CasesService.getModulePermission: queries the Project container for the
modules of (customerId, projectId) and derives the active module types. -/
def getModulePermission (store : CosmosStore) (customerId projectId : String) :
    Option (List String) :=
  let projectPermission := store.projectQuery
    { query := "SELECT backend.modules from backend WHERE backend.customerId = @customerId AND backend.projectId = @projectId"
      parameters := [{ name := "@customerId", value := customerId },
                     { name := "@projectId", value := projectId }] }
    "Project"
  activeModuleTypes projectPermission

/-- The fixed base query getCaseList executes, scoped by customerId and
projectId and ordered by creation time. -/
def caseListBaseQuery (customerId projectId : String) : QuerySpec :=
  { query := "SELECT * FROM general WHERE general.customerId = @customerId AND general.projectId = @projectId ORDER BY general.createdAt"
    parameters := [{ name := "@customerId", value := customerId },
                   { name := "@projectId", value := projectId }] }

/-- What CasesService.getCaseList returns. -/
structure CaseListResult where
  result : List CaseModel
  options : List String
  hasMoreResults : Bool
  continuationToken : String
deriving DecidableEq, Repr

/-- The fixed options catalog getCaseList returns. -/
def caseOptions : List String :=
  ["Invoice", "Waybill", "Delivery Note", "Order Confirmation", "Packing List"]

/-- result.filter((it) => resFilter.indexOf(it.module) !== -1): when resFilter
is undefined (no permission record), the callback throws a TypeError on the
first element, so the filter only succeeds on an empty array. -/
def permissionFilter (resFilter : Option (List String)) (result : List CaseModel) :
    Except String (List CaseModel) :=
  match resFilter with
  | Option.some perms => Except.ok (result.filter (fun it => perms.contains it.module))
  | Option.none =>
    match result with
    | [] => Except.ok []
    | _ :: _ =>
      Except.error "TypeError: Cannot read properties of undefined (reading indexOf)"

/-- CasesService.getCaseList: permission lookup, clause composition (computed
but unused by the executed query), fixed base query through
queryContainerNext with the caller's page options, then permission filtering;
hasMoreResults || false and continuationToken || "" default absent values. -/
def getCaseList (store : CosmosStore) (customerId projectId : String)
    (contToken : String) (pageLimit : Nat) (sort : List SortItem)
    (filter : List Filter) (search : List String)
    (searchFields : List SearchField) (properties : List String) :
    Except String CaseListResult :=
  let resFilter := getModulePermission store customerId projectId
  let _allOptions := getAllOptionsQuery sort filter search searchFields properties
  let page := queryContainerNext store (caseListBaseQuery customerId projectId)
    { maxItemCount := pageLimit, continuationToken := contToken,
      partitionKey := "createdAt" } "testing"
  match permissionFilter resFilter page.result with
  | Except.error e => Except.error e
  | Except.ok rows =>
    Except.ok
      { result := rows
        options := caseOptions
        hasMoreResults := page.hasMoreResults.getD false
        continuationToken := page.continuationToken.getD "" }

/-- A store with no permission record for any (customerId, projectId) key and
a nonempty case page: the Project query returns no rows. -/
def noPermissionStore : CosmosStore :=
  { projectQuery := fun _ _ => []
    fetchNext := fun _ _ _ =>
      { resources := [{ module := "Invoice", id := "case1" }]
        hasMoreResults := Option.some true
        continuationToken := Option.some "tok1" } }

/-- A store whose permission record exists but lists no modules, over the same
nonempty case page as noPermissionStore. -/
def emptyModulesStore : CosmosStore :=
  { projectQuery := fun _ _ => [{ modules := Option.some [] }]
    fetchNext := fun _ _ _ =>
      { resources := [{ module := "Invoice", id := "case1" }]
        hasMoreResults := Option.some true
        continuationToken := Option.some "tok1" } }

/-- A store with an active Invoice module permission and a two-row page. -/
def passthroughStore : CosmosStore :=
  { projectQuery := fun _ _ =>
      [{ modules := Option.some [{ type := "Invoice", active := true }] }]
    fetchNext := fun _ _ _ =>
      { resources := [{ module := "Invoice", id := "case1" },
                      { module := "Waybill", id := "case2" }]
        hasMoreResults := Option.some true
        continuationToken := Option.some "next" } }

/-
Helper lemmas shared by the per-claim theorems.
-/

/-- The fragment list built by getFilterSql's forEach loop, read at position
`i`, is the fragment of the input filter at position `i` with index `n + i`. -/
theorem getFilterSqlAux_getElem? (filters : List Filter) :
    ∀ (n i : Nat), (getFilterSqlAux n filters)[i]? =
      (filters[i]?).map (fun f => filterFragment (n + i) f) := by
  induction filters with
  | nil => intro n i; simp [getFilterSqlAux]
  | cons f rest ih =>
    intro n i
    cases i with
    | zero => simp [getFilterSqlAux]
    | succ j =>
      have h : n + 1 + j = n + (j + 1) := by omega
      simp only [getFilterSqlAux, List.getElem?_cons_succ, ih (n + 1) j, h]

/-- Past the head of the list, the sort fragment does not depend on the index:
it is the bare comma-joinable term (empty for an unrecognized direction). -/
theorem getSortAux_succ (l : List SortItem) :
    ∀ n : Nat, getSortAux (n + 1) l = l.map (fun item =>
      match item.order with
      | SortOrder.ASC => "backend." ++ item.field ++ " ASC"
      | SortOrder.DESC => "backend." ++ item.field ++ " DESC"
      | SortOrder.other => "") := by
  induction l with
  | nil => intro n; rfl
  | cons item rest ih =>
    intro n
    simp only [getSortAux, List.map_cons, ih (n + 1)]
    cases h : item.order <;> simp [sortFragment, h]

/-- C8: for every dotted field path, objectToString maps each dot-separated
segment to `.segment` except the literal segment "value", which maps to the
bracket-quoted accessor, and concatenates the per-segment results in order
with no other separators; resolving "a.value.b" yields `.a["value"].b`. -/
theorem objectToString_spec (s : String) :
    objectToString s = String.join ((jsSplit '.' s).map
      (fun item => if item = "value" then "[\"value\"]" else "." ++ item)) ∧
    objectToString "a.value.b" = ".a" ++ "[\"value\"]" ++ ".b" := by
  constructor
  · unfold objectToString String.join
    rw [List.foldl_map]
  · decide

/-- C7: for a nonempty sort list, the fragment at index 0 with a recognized
direction renders in the ORDER-BY-introducing form, every later fragment is a
bare comma-joinable term, an unrecognized direction renders as the empty
string, and getAllOptionsQuery joins the fragments with ", ". -/
theorem getSort_spec (a : SortItem) (rest : List SortItem) (filter : List Filter)
    (search : List String) (searchFields : List SearchField) (properties : List String) :
    getSort (a :: rest) =
      (match a.order with
        | SortOrder.ASC => "ORDER BY backend." ++ a.field ++ " ASC"
        | SortOrder.DESC => "ORDER BY backend." ++ a.field ++ " DESC"
        | SortOrder.other => "") ::
      rest.map (fun item =>
        match item.order with
        | SortOrder.ASC => "backend." ++ item.field ++ " ASC"
        | SortOrder.DESC => "backend." ++ item.field ++ " DESC"
        | SortOrder.other => "") ∧
    (getAllOptionsQuery (a :: rest) filter search searchFields properties).sorts =
      jsJoin ", " (getSort (a :: rest)) := by
  constructor
  · show getSortAux 0 (a :: rest) = _
    rw [getSortAux, getSortAux_succ rest 0]
    cases h : a.order <;> simp [sortFragment, h]
  · rfl

/-- C2 counterexample: on a criterion with an unrecognized comparison operator
(non-reserved first segment, defined value) the condition encoder returns
undefined, but the criterion is not omitted: getFilterSql still pushes a
fragment, with the literal text "undefined" in the operator position. -/
theorem filterCondition_unrecognized_cex :
    filterCondition FilterCondition.other = Option.none ∧
    getFilterSql [⟨"status", FilterCondition.other, JsValue.str "open"⟩] =
      ["AND backend.status undefined 'open'"] ∧
    getFilterSql [⟨"status", FilterCondition.other, JsValue.str "open"⟩] ≠ [] := by
  refine ⟨rfl, by decide, by decide⟩

/-- C2 amended: for a criterion with a non-reserved first segment, a defined
value and an unrecognized comparison operator, the condition encoder returns
undefined and getFilterSql emits a fragment whose operator position holds the
literal text "undefined" (the criterion is kept, not omitted). -/
theorem getFilterSql_unrecognized_condition (fs : List Filter) (i : Nat) (f : Filter)
    (hget : fs[i]? = Option.some f)
    (hdoc : filterFirst f.field ≠ "documents")
    (hsub : filterFirst f.field ≠ "submissions")
    (hval : f.value ≠ JsValue.undef)
    (hcond : filterCondition f.condition = Option.none) :
    (getFilterSql fs)[i]? = Option.some
      ("AND backend" ++ objectToString f.field ++ " " ++ "undefined" ++ " " ++
        renderFilterValue f.value) := by
  rw [getFilterSql, getFilterSqlAux_getElem? fs 0 i, hget]
  simp [filterFragment, hdoc, hsub, hval, hcond, jsRenderOpt]

/-- C2 witness for the amended theorem at a concrete criterion. -/
theorem getFilterSql_unrecognized_condition_witness :
    (getFilterSql [⟨"status", FilterCondition.other, JsValue.str "open"⟩])[0]? = Option.some
      ("AND backend" ++ objectToString "status" ++ " " ++ "undefined" ++ " " ++
        renderFilterValue (JsValue.str "open")) :=
  getFilterSql_unrecognized_condition
    [⟨"status", FilterCondition.other, JsValue.str "open"⟩] 0
    ⟨"status", FilterCondition.other, JsValue.str "open"⟩
    rfl (by decide) (by decide) (by decide) rfl

/-- C4: for a criterion whose first path segment is not documents/submissions,
whose value is defined and whose operator the encoder recognizes, getFilterSql
emits exactly `AND backend<resolvedPath> <operatorSymbol> <renderedValue>`,
where a number or boolean renders unquoted and any other value renders wrapped
in single quotes with no escaping of embedded quote characters. -/
theorem getFilterSql_where_fragment (fs : List Filter) (i : Nat) (f : Filter) (sym : String)
    (hget : fs[i]? = Option.some f)
    (hdoc : filterFirst f.field ≠ "documents")
    (hsub : filterFirst f.field ≠ "submissions")
    (hval : f.value ≠ JsValue.undef)
    (hsym : filterCondition f.condition = Option.some sym) :
    (getFilterSql fs)[i]? = Option.some
      ("AND backend" ++ objectToString f.field ++ " " ++ sym ++ " " ++
        renderFilterValue f.value) ∧
    (∀ n : Int, f.value = JsValue.num n → renderFilterValue f.value = toString n) ∧
    (∀ b : Bool, f.value = JsValue.bool b → renderFilterValue f.value = toString b) ∧
    (∀ s : String, f.value = JsValue.str s →
      renderFilterValue f.value = "'" ++ s ++ "'") := by
  refine ⟨?_, ?_, ?_, ?_⟩
  · rw [getFilterSql, getFilterSqlAux_getElem? fs 0 i, hget]
    simp [filterFragment, hdoc, hsub, hval, hsym, jsRenderOpt]
  · intro n hn; rw [hn]; rfl
  · intro b hb; rw [hb]; rfl
  · intro s hs; rw [hs]; rfl

/-- C4 witness at a concrete criterion with a string value. -/
theorem getFilterSql_where_fragment_witness :
    (getFilterSql [⟨"a.value.b", FilterCondition.greaterThan, JsValue.str "x"⟩])[0]? = Option.some
      ("AND backend" ++ objectToString "a.value.b" ++ " " ++ ">" ++ " " ++
        renderFilterValue (JsValue.str "x")) ∧
    (∀ n : Int, JsValue.str "x" = JsValue.num n →
      renderFilterValue (JsValue.str "x") = toString n) ∧
    (∀ b : Bool, JsValue.str "x" = JsValue.bool b →
      renderFilterValue (JsValue.str "x") = toString b) ∧
    (∀ s : String, JsValue.str "x" = JsValue.str s →
      renderFilterValue (JsValue.str "x") = "'" ++ s ++ "'") :=
  getFilterSql_where_fragment
    [⟨"a.value.b", FilterCondition.greaterThan, JsValue.str "x"⟩] 0
    ⟨"a.value.b", FilterCondition.greaterThan, JsValue.str "x"⟩
    ">" rfl (by decide) (by decide) (by decide) rfl

/-- C5 counterexample: for the three-segment path "documents.a.b" the JOIN
fragment filters on "a.b", the whole remainder after the first dot, not on the
second path segment "a" as the claim states. -/
theorem getFilterSql_join_second_segment_cex :
    getFilterSql [⟨"documents.a.b", FilterCondition.equals, JsValue.str "v"⟩] =
      ["JOIN (SELECT VALUE t0 FROM t0 IN backend.documents WHERE t0.a.b = 'v')"] ∧
    (jsSplit '.' "documents.a.b")[1]? = Option.some "a" ∧
    ("JOIN (SELECT VALUE t0 FROM t0 IN backend.documents WHERE t0.a.b = 'v')" : String) ≠
      "JOIN (SELECT VALUE t0 FROM t0 IN backend.documents WHERE t0.a = 'v')" := by
  refine ⟨by decide, by decide, by decide⟩

/-- C5 amended: for the criterion at position i whose computed first segment is
documents or submissions, getFilterSql emits the correlated-subquery JOIN
fragment binding alias t\x7bi\x7d to that collection, filtering on the remainder of
the field path after the first dot (filterSecond; the literal text "undefined"
when the path has no dot) equal to the raw unescaped value. -/
theorem getFilterSql_join_fragment (fs : List Filter) (i : Nat) (f : Filter)
    (hget : fs[i]? = Option.some f)
    (hfirst : filterFirst f.field = "documents" ∨ filterFirst f.field = "submissions") :
    (getFilterSql fs)[i]? = Option.some
      ("JOIN (SELECT VALUE t" ++ toString i ++ " FROM t" ++ toString i ++
        " IN backend." ++ filterFirst f.field ++ " WHERE t" ++ toString i ++ "." ++
        jsRenderOpt (filterSecond f.field) ++ " = '" ++ jsRender f.value ++ "')") := by
  rw [getFilterSql, getFilterSqlAux_getElem? fs 0 i, hget]
  rcases hfirst with h | h <;> simp [filterFragment, h]

/-- C5 witness for the amended theorem at a concrete two-segment criterion. -/
theorem getFilterSql_join_fragment_witness :
    (getFilterSql [⟨"documents.status", FilterCondition.equals, JsValue.str "open"⟩])[0]? =
      Option.some
        ("JOIN (SELECT VALUE t" ++ toString 0 ++ " FROM t" ++ toString 0 ++
          " IN backend." ++ filterFirst "documents.status" ++ " WHERE t" ++ toString 0 ++ "." ++
          jsRenderOpt (filterSecond "documents.status") ++ " = '" ++
          jsRender (JsValue.str "open") ++ "')") :=
  getFilterSql_join_fragment
    [⟨"documents.status", FilterCondition.equals, JsValue.str "open"⟩] 0
    ⟨"documents.status", FilterCondition.equals, JsValue.str "open"⟩
    rfl (Or.inl (by decide))

/-- C6 counterexample: a criterion with an absent value whose first path
segment is "documents" does not compile to the negative-existence check; the
reserved-collection JOIN branch wins and interpolates the absent value as the
text 'undefined'. -/
theorem getFilterSql_absent_value_cex :
    getFilterSql [⟨"documents.status", FilterCondition.equals, JsValue.undef⟩] =
      ["JOIN (SELECT VALUE t0 FROM t0 IN backend.documents WHERE t0.status = 'undefined')"] ∧
    getFilterSql [⟨"documents.status", FilterCondition.equals, JsValue.undef⟩] ≠
      ["AND NOT IS_DEFINED(backend" ++ objectToString "documents.status" ++ ")"] := by
  refine ⟨by decide, by decide⟩

/-- C6 amended: for a criterion whose value is absent and whose first path
segment is not documents/submissions, the emitted fragment is exactly the
negative-existence check on the resolved path, with no value rendered. -/
theorem getFilterSql_not_defined (fs : List Filter) (i : Nat) (f : Filter)
    (hget : fs[i]? = Option.some f)
    (hdoc : filterFirst f.field ≠ "documents")
    (hsub : filterFirst f.field ≠ "submissions")
    (hval : f.value = JsValue.undef) :
    (getFilterSql fs)[i]? = Option.some
      ("AND NOT IS_DEFINED(backend" ++ objectToString f.field ++ ")") := by
  rw [getFilterSql, getFilterSqlAux_getElem? fs 0 i, hget]
  simp [filterFragment, hdoc, hsub, hval]

/-- C6 witness for the amended theorem at a concrete criterion. -/
theorem getFilterSql_not_defined_witness :
    (getFilterSql [⟨"meta.done", FilterCondition.equals, JsValue.undef⟩])[0]? =
      Option.some ("AND NOT IS_DEFINED(backend" ++ objectToString "meta.done" ++ ")") :=
  getFilterSql_not_defined
    [⟨"meta.done", FilterCondition.equals, JsValue.undef⟩] 0
    ⟨"meta.done", FilterCondition.equals, JsValue.undef⟩
    rfl (by decide) (by decide) rfl

/-- C3 counterexample: the composer keeps every fragment containing "AND" as a
substring anywhere, so a JOIN fragment whose interpolated value contains "AND"
(here the value "BRAND") survives the filter and appears in the joined filter
clause, where the claim predicts the empty join. -/
theorem getAllOptionsQuery_join_retained_cex :
    (getAllOptionsQuery [] [⟨"documents.status", FilterCondition.equals,
        JsValue.str "BRAND"⟩] [] [] []).filters =
      "JOIN (SELECT VALUE t0 FROM t0 IN backend.documents WHERE t0.status = 'BRAND')" ∧
    ("JOIN (SELECT VALUE t0 FROM t0 IN backend.documents WHERE t0.status = 'BRAND')" : String)
      ≠ "" := by
  refine ⟨by decide, by decide⟩

/-- C3 amended: getAllOptionsQuery retains exactly the filter fragments that
contain the substring "AND" anywhere (not only AND-prefixed WHERE fragments)
and joins the retained fragments with a single space; a JOIN fragment is
discarded only when it does not contain "AND". -/
theorem getAllOptionsQuery_filters_spec (sort : List SortItem) (filter : List Filter)
    (search : List String) (searchFields : List SearchField) (properties : List String) :
    (getAllOptionsQuery sort filter search searchFields properties).filters =
      jsJoin " " ((getFilterSql filter).filter (fun item => jsIncludes item "AND")) ∧
    ∀ item, item ∈ (getFilterSql filter).filter (fun item => jsIncludes item "AND") ↔
      (item ∈ getFilterSql filter ∧ jsIncludes item "AND" = true) := by
  exact ⟨rfl, fun item => List.mem_filter⟩

/-- C1: the claim's no-permission-record case crashes instead of returning an
empty page.  With no Project record the derived permitted-module set is
undefined, and filtering a nonempty page then throws a TypeError; only a
record that exists with an empty module list yields the zero-row page. -/
theorem getCaseList_no_permission_record_raises :
    getModulePermission noPermissionStore "c" "p" = Option.none ∧
    getCaseList noPermissionStore "c" "p" "" 10 [] [] [] [] [] =
      Except.error "TypeError: Cannot read properties of undefined (reading indexOf)" ∧
    getCaseList emptyModulesStore "c" "p" "" 10 [] [] [] [] [] =
      Except.ok ⟨[], caseOptions, true, "tok1"⟩ :=
  ⟨rfl, rfl, rfl⟩

/-- C9: when a permission record exists, getCaseList passes the caller's page
limit and continuation cursor to the store unchanged inside the feed options
of the fixed base query, and surfaces the store's hasMoreResults and
continuationToken verbatim, defaulting them to false and "" when absent. -/
theorem getCaseList_passthrough (store : CosmosStore)
    (customerId projectId contToken : String) (pageLimit : Nat)
    (sort : List SortItem) (filter : List Filter) (search : List String)
    (searchFields : List SearchField) (properties : List String) (perms : List String)
    (hperm : getModulePermission store customerId projectId = Option.some perms) :
    getCaseList store customerId projectId contToken pageLimit sort filter search
        searchFields properties =
      Except.ok
        { result := ((store.fetchNext (caseListBaseQuery customerId projectId)
            ⟨pageLimit, contToken, "createdAt"⟩ "testing").resources).filter
              (fun it => perms.contains it.module)
          options := caseOptions
          hasMoreResults := (store.fetchNext (caseListBaseQuery customerId projectId)
            ⟨pageLimit, contToken, "createdAt"⟩ "testing").hasMoreResults.getD false
          continuationToken := (store.fetchNext (caseListBaseQuery customerId projectId)
            ⟨pageLimit, contToken, "createdAt"⟩ "testing").continuationToken.getD "" } := by
  simp [getCaseList, queryContainerNext, permissionFilter, hperm]

/-- C9 witness at a concrete store with a present permission record. -/
theorem getCaseList_passthrough_witness :
    getCaseList passthroughStore "c" "p" "" 10 [] [] [] [] [] =
      Except.ok
        { result := ((passthroughStore.fetchNext (caseListBaseQuery "c" "p")
            ⟨10, "", "createdAt"⟩ "testing").resources).filter
              (fun it => List.contains ["Invoice"] it.module)
          options := caseOptions
          hasMoreResults := (passthroughStore.fetchNext (caseListBaseQuery "c" "p")
            ⟨10, "", "createdAt"⟩ "testing").hasMoreResults.getD false
          continuationToken := (passthroughStore.fetchNext (caseListBaseQuery "c" "p")
            ⟨10, "", "createdAt"⟩ "testing").continuationToken.getD "" } :=
  getCaseList_passthrough passthroughStore "c" "p" "" 10 [] [] [] [] [] ["Invoice"] rfl

/-- C10: two getCaseList calls that agree on customerId, projectId, cursor,
page limit and the store collaborator return identical results even when
their sort, filter, search, searchFields and properties arguments differ:
the composed clause fragments are computed but the executed query is the
fixed base query. -/
theorem getCaseList_ignores_query_options (store : CosmosStore)
    (customerId projectId contToken : String) (pageLimit : Nat)
    (sortA : List SortItem) (filterA : List Filter) (searchA : List String)
    (searchFieldsA : List SearchField) (propertiesA : List String)
    (sortB : List SortItem) (filterB : List Filter) (searchB : List String)
    (searchFieldsB : List SearchField) (propertiesB : List String) :
    getCaseList store customerId projectId contToken pageLimit
        sortA filterA searchA searchFieldsA propertiesA =
      getCaseList store customerId projectId contToken pageLimit
        sortB filterB searchB searchFieldsB propertiesB := rfl

end Cosmos
